import Mathlib

/-
Shallow embedding of the schema diffing/migration-planning core of the
renovate repository: the Index, SinglePriv and TableRls object kinds, the
differ protocol and the migration planner protocol, together with a model
of the restricted SQL grammar subset the spec exercises.

Rust fallible computations are embedded as an explicit result type that
distinguishes a returned error (anyhow::Result::Err) from a Rust panic
(out-of-bounds indexing, assert!, Result::unwrap), so that claims about
"fails with an error" versus "panics" are expressible.
-/

namespace Renovate

/-- Result of a Rust computation: a value, a returned error, or a panic.
A returned error models anyhow::Result::Err propagated with the question
mark operator; a panic models out-of-bounds indexing, a failed assert!,
or Result::unwrap on an Err. -/
inductive RResult (α : Type) where
  | ok : α → RResult α
  | err : String → RResult α
  | panicked : String → RResult α
deriving DecidableEq, Repr

/-- Sequencing of fallible Rust computations: errors and panics propagate. -/
def RResult.bind {α β : Type} : RResult α → (α → RResult β) → RResult β
  | .ok a, f => f a
  | .err e, _ => .err e
  | .panicked m, _ => .panicked m

/-- Lift a Rust Result (embedded as Except) through the question mark
operator: an Err becomes a returned error. -/
def RResult.ofExcept {α : Type} : Except String α → RResult α
  | .ok a => .ok a
  | .error e => .err e

/-- Rust Result::unwrap: an Err becomes a panic. -/
def RResult.unwrapE {α : Type} : Except String α → RResult α
  | .ok a => .ok a
  | .error e => .panicked e

/-- Identity of a namespace-scoped object: schema (namespace) plus name. -/
structure SchemaId where
  schema : String
  name : String
deriving DecidableEq, Repr

/-- Identity of an object owned by a relation: its own name plus the
owning relation's schema-qualified identity. -/
structure RelationId where
  name : String
  schema_id : SchemaId
deriving DecidableEq, Repr

/-- Model of the pg_query protobuf RangeVar: an optionally
schema-qualified relation name. The schemaname field is the empty string
when the SQL text did not qualify the name. -/
structure RangeVar where
  schemaname : String
  relname : String
deriving DecidableEq, Repr

/-- Model of the pg_query protobuf IndexStmt, restricted to the fields
the embedded code reads: index name, target relation, access method and
the indexed column names (IndexElem collapsed to its name). The relation
field is optional exactly as in the protobuf. -/
structure IndexStmt where
  idxname : String
  relation : Option RangeVar
  accessMethod : String
  indexParams : List String
deriving DecidableEq, Repr

/-- Alter-table subcommand kinds of the modelled grammar subset: the two
row-level-security toggles. -/
inductive AtSubType where
  | atEnableRowSecurity
  | atDisableRowSecurity
deriving DecidableEq, Repr

/-- Model of the pg_query protobuf AlterTableStmt restricted to the
grammar subset: the target relation and a single RLS subcommand (the cmds
list of the protobuf collapsed to the one command the subset produces). -/
structure AlterTableStmt where
  relation : RangeVar
  subtype : AtSubType
deriving DecidableEq, Repr

/-- Model of the pg_query protobuf AccessPriv: one privilege name with
its column list. The protobuf wraps each column in a String node; the
wrapper is elided and the column names kept directly. -/
structure AccessPriv where
  priv_name : String
  cols : List String
deriving DecidableEq, Repr

/-- Model of the pg_query protobuf GrantStmt restricted to the fields the
embedded code reads or writes: direction flag, target object, grantees
and the privilege list (each privilege's Node wrapper elided). -/
structure GrantStmt where
  is_grant : Bool
  objname : String
  grantees : List String
  privileges : List AccessPriv
deriving DecidableEq, Repr

/-- Model of the pg_query NodeEnum restricted to the node kinds the
embedded code constructs or matches on. The string constructor stands for
the protobuf String node (a non-statement node), which the code in
single_priv.rs builds for column names and which cannot be deparsed as a
statement. -/
inductive NodeEnum where
  | indexStmt (stmt : IndexStmt)
  | alterTableStmt (stmt : AlterTableStmt)
  | grantStmt (stmt : GrantStmt)
  | string (s : String)
deriving DecidableEq, Repr

/-- Wrapped index node: identity plus the untouched parsed statement
(src/parser/index.rs; equality is structural on both fields, as the
derived PartialEq on the Rust struct). -/
structure Index where
  id : RelationId
  node : NodeEnum
deriving DecidableEq, Repr

/-- Delta for an index pair (src/parser/index.rs, struct IndexDiff). -/
structure IndexDiff where
  id : RelationId
  old : Option Index
  new : Option Index
  diff : String
deriving DecidableEq, Repr

/-- Wrapped row-level-security toggle: the owning table's identity plus
the untouched parsed ALTER TABLE statement (TableRls::new in
src/parser/table/table_rls.rs). -/
structure TableRls where
  id : SchemaId
  node : NodeEnum
deriving DecidableEq, Repr

/-- Wrapped GRANT/REVOKE statement: identity plus the untouched parsed
statement. Modelled from the spec: the Privilege wrapper itself is
declared outside the provided sources; per the spec every wrapped node is
an id plus the opaque AST value. -/
structure Privilege where
  id : SchemaId
  node : NodeEnum
deriving DecidableEq, Repr

/-- One privilege entry inside a GRANT/REVOKE statement: privilege name
plus column set. The Rust BTreeSet of columns is modelled as its ordered
element list. -/
structure SinglePriv where
  name : String
  cols : List String
deriving DecidableEq, Repr

/-- Generic delta: old and new sides plus a textual description used only
for reporting (struct NodeDiff of the core). -/
structure NodeDiff (α : Type) where
  old : Option α
  new : Option α
  diff : String
deriving DecidableEq, Repr

/-- Modelled from the spec: conversion of a statement's RangeVar to a
SchemaId, applying the documented default namespace public when the SQL
text omitted an explicit one (spec 4.1; pinned by the test
index_should_parse). -/
def SchemaId.ofRangeVar (rv : RangeVar) : SchemaId :=
  { schema := if rv.schemaname = "" then "public" else rv.schemaname
    name := rv.relname }

/-- Modelled from the spec: Display for SchemaId renders the
schema-qualified name, as pinned by the table_rls tests
(ALTER TABLE public.foo ...). -/
def SchemaId.display (sid : SchemaId) : String :=
  sid.schema ++ "." ++ sid.name

/-- Render a RangeVar the way the pg_query deparser does: qualified only
when a schema name is present. -/
def RangeVar.render (rv : RangeVar) : String :=
  if rv.schemaname = "" then rv.relname else rv.schemaname ++ "." ++ rv.relname

/-- Comma-separated rendering of a name list. -/
def commaJoin : List String → String
  | [] => ""
  | [x] => x
  | x :: xs => x ++ ", " ++ commaJoin xs

/-- Render one AccessPriv inside a GRANT/REVOKE statement. -/
def AccessPriv.render (p : AccessPriv) : String :=
  p.priv_name ++ (if p.cols.isEmpty then "" else " (" ++ commaJoin p.cols ++ ")")

/-- Modelled from the spec: pg_query deparse (re-rendering a node back to
canonical SQL text). Statement nodes of the subset render to the canonical
forms pinned by the repository tests; a non-statement node (the bare
String node) is not a statement and fails to deparse. -/
def NodeEnum.deparse : NodeEnum → Except String String
  | .indexStmt stmt =>
    match stmt.relation with
    | some rv =>
      .ok ("CREATE INDEX " ++ stmt.idxname ++ " ON " ++ rv.render ++ " USING "
        ++ stmt.accessMethod ++ " (" ++ commaJoin stmt.indexParams ++ ")")
    | none => .error "deparse: index statement without relation"
  | .alterTableStmt stmt =>
    .ok ("ALTER TABLE " ++ stmt.relation.render ++
      (match stmt.subtype with
       | .atEnableRowSecurity => " ENABLE ROW LEVEL SECURITY"
       | .atDisableRowSecurity => " DISABLE ROW LEVEL SECURITY"))
  | .grantStmt stmt =>
    .ok ((if stmt.is_grant then "GRANT " else "REVOKE ")
      ++ (commaJoin (stmt.privileges.map AccessPriv.render)
        ++ " ON " ++ stmt.objname
        ++ (if stmt.is_grant then " TO " else " FROM ")
        ++ commaJoin stmt.grantees))
  | .string _ => .error "deparse: unpermitted non-statement node"

/-- Punctuation characters the SQL lexer emits as single-character
tokens. -/
def isPunct (c : Char) : Bool :=
  c = '(' || c = ')' || c = ',' || c = ';' || c = '.'

/-- Modelled from the spec: the SQL lexer of the recognized grammar
subset. Splits on whitespace, emits punctuation as single tokens and
case-folds everything (unquoted identifiers and keywords are
case-insensitive, spec 8: identity stability under formatting). -/
def tokenizeChars : List Char → List Char → List String
  | [], cur => if cur.isEmpty then [] else [String.mk cur.reverse]
  | c :: rest, cur =>
    if c.isWhitespace then
      (if cur.isEmpty then [] else [String.mk cur.reverse]) ++ tokenizeChars rest []
    else if isPunct c then
      (if cur.isEmpty then [] else [String.mk cur.reverse])
        ++ String.mk [c] :: tokenizeChars rest []
    else
      tokenizeChars rest (c.toLower :: cur)

/-- Tokenize a SQL string. -/
def tokenize (s : String) : List String :=
  tokenizeChars s.toList []

/-- Split a token stream into statement groups at semicolons, dropping
empty groups (so pure separators yield no statements, exactly as the
Postgres raw parser yields zero statements for empty input). -/
def splitAux : List String → List String → List (List String)
  | [], cur => if cur.isEmpty then [] else [cur.reverse]
  | t :: ts, cur =>
    if t = ";" then
      (if cur.isEmpty then [] else [cur.reverse]) ++ splitAux ts []
    else
      splitAux ts (t :: cur)

/-- Statement groups of a token stream. -/
def splitStmts (ts : List String) : List (List String) :=
  splitAux ts []

/-- A token usable as an identifier: nonempty and not punctuation. -/
def isIdentTok (t : String) : Bool :=
  t ≠ "" && t ≠ "(" && t ≠ ")" && t ≠ "," && t ≠ ";" && t ≠ "."

/-- Parse an optionally schema-qualified name, returning the RangeVar and
the remaining tokens. -/
def parseQualName : List String → Except String (RangeVar × List String)
  | a :: "." :: b :: rest =>
    if isIdentTok a && isIdentTok b then .ok ({ schemaname := a, relname := b }, rest)
    else .error "bad qualified name"
  | a :: rest =>
    if isIdentTok a then .ok ({ schemaname := "", relname := a }, rest)
    else .error "bad name"
  | [] => .error "expected a name"

/-- Parse the comma-separated column list of a CREATE INDEX, up to and
including the closing parenthesis (which must end the statement). -/
def parseColList : List String → Except String (List String)
  | [c, ")"] => if isIdentTok c then .ok [c] else .error "bad column"
  | c :: "," :: rest =>
    if isIdentTok c then
      match parseColList rest with
      | .ok cols => .ok (c :: cols)
      | .error e => .error e
    else .error "bad column"
  | _ => .error "bad column list"

/-- Parse the tail of CREATE INDEX: name ON table [USING method]
(columns). The access method defaults to btree exactly as the Postgres
grammar fills it in at parse time (pinned by the repository test output
CREATE INDEX foo ON bar USING btree (ooo)). -/
def parseCreateIndexTail : List String → Except String IndexStmt
  | name :: "on" :: rest =>
    if isIdentTok name then
      match parseQualName rest with
      | .error e => .error e
      | .ok (rv, rest2) =>
        match rest2 with
        | "using" :: m :: "(" :: rest3 =>
          if isIdentTok m then
            match parseColList rest3 with
            | .ok cols =>
              .ok { idxname := name, relation := some rv, accessMethod := m,
                    indexParams := cols }
            | .error e => .error e
          else .error "bad access method"
        | "(" :: rest3 =>
          match parseColList rest3 with
          | .ok cols =>
            .ok { idxname := name, relation := some rv, accessMethod := "btree",
                  indexParams := cols }
          | .error e => .error e
        | _ => .error "expected index column list"
    else .error "bad index name"
  | _ => .error "expected index name and ON"

/-- Parse the tail of ALTER TABLE: table ENABLE|DISABLE ROW LEVEL
SECURITY (the alter-table subset the spec exercises). -/
def parseAlterTableTail (ts : List String) : Except String AlterTableStmt :=
  match parseQualName ts with
  | .error e => .error e
  | .ok (rv, rest) =>
    match rest with
    | ["enable", "row", "level", "security"] =>
      .ok { relation := rv, subtype := .atEnableRowSecurity }
    | ["disable", "row", "level", "security"] =>
      .ok { relation := rv, subtype := .atDisableRowSecurity }
    | _ => .error "unsupported ALTER TABLE form"

/-- Parse one semicolon-free statement group. -/
def parseStmtTokens (ts : List String) : Except String NodeEnum :=
  match ts with
  | t1 :: t2 :: rest =>
    if t1 = "create" && t2 = "index" then
      match parseCreateIndexTail rest with
      | .ok stmt => .ok (.indexStmt stmt)
      | .error e => .error e
    else if t1 = "alter" && t2 = "table" then
      match parseAlterTableTail rest with
      | .ok stmt => .ok (.alterTableStmt stmt)
      | .error e => .error e
    else .error "syntax error"
  | _ => .error "syntax error"

/-- Parse every statement group, failing on the first bad one. -/
def parseGroups : List (List String) → Except String (List NodeEnum)
  | [] => .ok []
  | g :: gs =>
    match parseStmtTokens g, parseGroups gs with
    | .ok n, .ok ns => .ok (n :: ns)
    | .error e, _ => .error e
    | .ok _, .error e => .error e

/-- Modelled from the spec: pg_query::parse restricted to the recognized
grammar subset (CREATE INDEX and the ALTER TABLE row-level-security
toggles, spec 4.1). Total and deterministic; input with no statements
(e.g. the empty string) parses successfully to an empty statement list,
as the Postgres raw parser does. -/
def pgParse (s : String) : Except String (List NodeEnum) :=
  parseGroups (splitStmts (tokenize s))

/-- Total textual description of a node, used only for the reporting
string of a delta. -/
def describeNode (n : NodeEnum) : String :=
  match n.deparse with
  | .ok s => s
  | .error e => e

/-- Modelled from the spec: create_diff (src/parser/utils, outside the
provided sources) builds the human-readable textual diff of the two
renderings, used for display and commit messages, never for planning
(spec 3, NodeDiff.diff). -/
def create_diff (old new : NodeEnum) : Except String String :=
  .ok ("- " ++ describeNode old ++ "\n+ " ++ describeNode new)

/-- get_id of src/parser/index.rs: read the index name and the owning
table's schema-qualified identity off the statement. The code asserts the
relation is present, so a missing relation is a panic, not an error. -/
def get_id (stmt : IndexStmt) : RResult RelationId :=
  match stmt.relation with
  | some rv => .ok { name := stmt.idxname, schema_id := SchemaId.ofRangeVar rv }
  | none => .panicked "assertion failed: stmt.relation.is_some()"

/-- TryFrom of an IndexStmt for Index (src/parser/index.rs): derive the
identity and retain the untouched node. -/
def Index.try_from (stmt : IndexStmt) : RResult Index :=
  RResult.bind (get_id stmt) fun id => .ok { id := id, node := .indexStmt stmt }

/-- FromStr for Index (src/parser/index.rs): parse the text, take the
first statement node by indexing position zero (a panic when the parse
yields no statements), and accept only an index statement. -/
def Index.from_str (s : String) : RResult Index :=
  match pgParse s with
  | .error e => .err ("Failed to parse: " ++ s ++ ": " ++ e)
  | .ok [] => .panicked "index out of bounds: the len is 0 but the index is 0"
  | .ok (n :: _) =>
    match n with
    | .indexStmt stmt => Index.try_from stmt
    | _ => .err ("not an index: " ++ s)

/-- SqlDiffer for Index (src/parser/index.rs): bail on mismatched
identities, return none on structural equality of the wrapped values,
otherwise a delta echoing both sides with a textual description. -/
def Index.diff (self remote : Index) : RResult (Option IndexDiff) :=
  if self.id ≠ remote.id then
    .err ("can't diff " ++ self.id.name ++ " and " ++ remote.id.name)
  else if self ≠ remote then
    match create_diff self.node remote.node with
    | .error e => .err e
    | .ok d =>
      .ok (some { id := self.id, old := some self, new := some remote, diff := d })
  else .ok none

/-- MigrationPlanner for IndexDiff (src/parser/index.rs): push a DROP for
the old side, then the deparsed CREATE for the new side. The function
returns a bare statement list (no error channel); deparse is unwrapped,
so a render failure is a panic. -/
def IndexDiff.plan (d : IndexDiff) : RResult (List String) :=
  let drops : List String :=
    match d.old with
    | some old => ["DROP INDEX " ++ old.id.name ++ ";"]
    | none => []
  match d.new with
  | some new =>
    match new.node.deparse with
    | .ok s => .ok (drops ++ [s ++ ";"])
    | .error e => .panicked e
  | none => .ok drops

/-- Modelled from the spec: action classification of an alter-table
statement. The grammar subset only contains the row-level-security
toggles, so every statement classifies as the RLS action. -/
inductive AlterTableAction where
  | rls
deriving DecidableEq, Repr

/-- Modelled from the spec: the intermediate AlterTable wrapper (outside
the provided sources): the table's schema-qualified identity, the action
kind, and the untouched node. -/
structure AlterTable where
  id : SchemaId
  action : AlterTableAction
  node : NodeEnum
deriving DecidableEq, Repr

/-- Modelled from the spec: TryFrom of an AlterTableStmt for AlterTable:
derive the identity from the target relation with the default namespace
applied, classify the action, retain the node. -/
def AlterTable.try_from (stmt : AlterTableStmt) : RResult AlterTable :=
  .ok { id := SchemaId.ofRangeVar stmt.relation, action := .rls,
        node := .alterTableStmt stmt }

/-- TryFrom of an AlterTable for TableRls (src/parser/table/table_rls.rs):
accept exactly the RLS action. -/
def TableRls.try_from (at_ : AlterTable) : RResult TableRls :=
  match at_.action with
  | .rls => .ok { id := at_.id, node := at_.node }

/-- FromStr for TableRls (src/parser/table/table_rls.rs): parse the text,
take the first statement node by indexing position zero, and accept only
an alter-table statement carrying the RLS action. -/
def TableRls.from_str (s : String) : RResult TableRls :=
  match pgParse s with
  | .error e => .err e
  | .ok [] => .panicked "index out of bounds: the len is 0 but the index is 0"
  | .ok (n :: _) =>
    match n with
    | .alterTableStmt stmt =>
      RResult.bind (AlterTable.try_from stmt) TableRls.try_from
    | _ => .err ("not a alter table RLS statement: " ++ s)

/-- NodeItem revert for TableRls (src/parser/table/table_rls.rs):
synthesize the DISABLE statement for the table's identity, parse it, and
take the first node by indexing position zero. -/
def TableRls.revert (t : TableRls) : RResult NodeEnum :=
  let sql := "ALTER TABLE " ++ t.id.display ++ " DISABLE ROW LEVEL SECURITY"
  match pgParse sql with
  | .error e => .err e
  | .ok [] => .panicked "index out of bounds: the len is 0 but the index is 0"
  | .ok (n :: _) =>
    match n with
    | .alterTableStmt stmt => .ok (.alterTableStmt stmt)
    | _ => .err "not a alter table RLS statement"

/-- MigrationPlanner drop for NodeDiff TableRls
(src/parser/table/table_rls.rs): deparse the revert of the old side;
both the revert and the deparse propagate their errors. -/
def NodeDiff.drop (d : NodeDiff TableRls) : RResult (List String) :=
  match d.old with
  | some old =>
    RResult.bind old.revert fun n => RResult.bind (RResult.ofExcept n.deparse)
      fun sql => .ok [sql]
  | none => .ok []

/-- MigrationPlanner create for NodeDiff TableRls
(src/parser/table/table_rls.rs): deparse the new side's node, propagating
the error. -/
def NodeDiff.create (d : NodeDiff TableRls) : RResult (List String) :=
  match d.new with
  | some new => RResult.bind (RResult.ofExcept new.node.deparse) fun sql => .ok [sql]
  | none => .ok []

/-- MigrationPlanner alter for NodeDiff TableRls
(src/parser/table/table_rls.rs): the documented no-op. -/
def NodeDiff.alter (_d : NodeDiff TableRls) : RResult (List String) :=
  .ok []

/-- Modelled from the spec: the default plan composition of the
MigrationPlanner protocol (spec 4.3): dispatch on the delta shape to the
applicable sub-operation (created to create, dropped to drop, altered to
alter; pinned for the dropped shape by the test
table_rls_should_generate_drop_create_migration). -/
def NodeDiff.plan (d : NodeDiff TableRls) : RResult (List String) :=
  match d.old, d.new with
  | none, none => .ok []
  | none, some _ => d.create
  | some _, none => d.drop
  | some _, some _ => d.alter

/-- From a SinglePriv to an AccessPriv (src/parser/privilege/
single_priv.rs): each column name becomes a String node in the column
list (the node wrapper elided in the model). -/
def AccessPriv.ofSinglePriv (p : SinglePriv) : AccessPriv :=
  { priv_name := p.name, cols := p.cols }

/-- NodeItem inner for Privilege: the wrapped node must be a grant
statement. Modelled from the spec mirroring the inner accessor shape of
table_rls.rs. -/
def Privilege.inner (item : Privilege) : Except String GrantStmt :=
  match item.node with
  | .grantStmt stmt => .ok stmt
  | _ => .error "not a grant statement"

/-- SinglePriv::generate_change (src/parser/privilege/single_priv.rs):
clone the base grant statement, force the direction flag, set its
privilege list to exactly this one sub-item, and return the new node.
The mutation targets the clone only; the function returns the base
Privilege alongside, making explicit which value the Rust code writes
through (the borrowed base is handed back untouched). -/
def SinglePriv.generate_change (self : SinglePriv) (item : Privilege)
    (is_grant : Bool) : RResult (NodeEnum × Privilege) :=
  match item.inner with
  | .error e => .err e
  | .ok stmt0 =>
    let stmt := { stmt0 with is_grant := is_grant,
                             privileges := [AccessPriv.ofSinglePriv self] }
    .ok (.grantStmt stmt, item)

/-- DeltaItem drop for SinglePriv (src/parser/privilege/single_priv.rs):
the single-privilege REVOKE statement. -/
def SinglePriv.drop (self : SinglePriv) (item : Privilege) : RResult (List String) :=
  RResult.bind (self.generate_change item false) fun pr =>
    RResult.bind (RResult.ofExcept pr.1.deparse) fun sql => .ok [sql]

/-- DeltaItem create for SinglePriv (src/parser/privilege/single_priv.rs):
the single-privilege GRANT statement. -/
def SinglePriv.create (self : SinglePriv) (item : Privilege) : RResult (List String) :=
  RResult.bind (self.generate_change item true) fun pr =>
    RResult.bind (RResult.ofExcept pr.1.deparse) fun sql => .ok [sql]

/-- DeltaItem alter for SinglePriv (src/parser/privilege/single_priv.rs):
extend with the drop of the local side, then with the create of the
remote side. -/
def SinglePriv.alter (self : SinglePriv) (item : Privilege) (remote : SinglePriv) :
    RResult (List String) :=
  RResult.bind (self.drop item) fun ds =>
    RResult.bind (remote.create item) fun cs => .ok (ds ++ cs)

/-! Concrete values used by the theorems below: the parse results of the
statements pinned by the spec and the repository tests, and a few
degenerate wrapper values exercising the failure paths. -/

/-- Identity of the table bar in the default namespace. -/
def sidBar : SchemaId := { schema := "public", name := "bar" }

/-- Identity of index foo on table public.bar. -/
def ridFoo : RelationId := { name := "foo", schema_id := sidBar }

/-- Parse result of CREATE INDEX foo ON bar (baz); . -/
def idxFooBaz : Index :=
  { id := ridFoo
    node := .indexStmt { idxname := "foo", relation := some { schemaname := "", relname := "bar" },
                         accessMethod := "btree", indexParams := ["baz"] } }

/-- Parse result of CREATE INDEX foo ON bar (ooo); . -/
def idxFooOoo : Index :=
  { id := ridFoo
    node := .indexStmt { idxname := "foo", relation := some { schemaname := "", relname := "bar" },
                         accessMethod := "btree", indexParams := ["ooo"] } }

/-- Parse result of CREATE INDEX qux ON bar (baz); . -/
def idxQux : Index :=
  { id := { name := "qux", schema_id := sidBar }
    node := .indexStmt { idxname := "qux", relation := some { schemaname := "", relname := "bar" },
                         accessMethod := "btree", indexParams := ["baz"] } }

/-- The delta produced by diffing idxFooBaz against idxFooOoo. -/
def deltaFoo : IndexDiff :=
  { id := ridFoo, old := some idxFooBaz, new := some idxFooOoo
    diff := "- CREATE INDEX foo ON bar USING btree (baz)\n+ CREATE INDEX foo ON bar USING btree (ooo)" }

/-- Parse result of ALTER TABLE foo ENABLE ROW LEVEL SECURITY. -/
def rlsFoo : TableRls :=
  { id := { schema := "public", name := "foo" }
    node := .alterTableStmt { relation := { schemaname := "", relname := "foo" },
                              subtype := .atEnableRowSecurity } }

/-- A TableRls wrapper holding a non-statement node, on which deparse
fails. -/
def rlsBad : TableRls :=
  { id := { schema := "public", name := "foo" }, node := .string "x" }

/-- A base GRANT statement on table public.foo. -/
def grantFoo : GrantStmt :=
  { is_grant := true, objname := "TABLE public.foo", grantees := ["app_user"],
    privileges := [{ priv_name := "select", cols := [] }] }

/-- The wrapped base privilege statement. -/
def privFoo : Privilege :=
  { id := { schema := "public", name := "foo" }, node := .grantStmt grantFoo }

/-- The single privilege INSERT with no column list. -/
def spInsert : SinglePriv := { name := "insert", cols := [] }

/-- The single privilege UPDATE with no column list. -/
def spUpdate : SinglePriv := { name := "update", cols := [] }

/-- An Index wrapper holding a non-statement node, on which deparse
fails. -/
def badIdx : Index := { id := ridFoo, node := .string "x" }

/-- A created-shape index delta whose new node cannot be deparsed. -/
def badIndexDelta : IndexDiff :=
  { id := ridFoo, old := none, new := some badIdx, diff := "" }

/-- The grant statement generate_change builds when revoking spInsert
against privFoo. -/
def grantAfterRevoke : NodeEnum :=
  .grantStmt { is_grant := false, objname := "TABLE public.foo", grantees := ["app_user"],
               privileges := [{ priv_name := "insert", cols := [] }] }

/-- C1: for two Index values with equal identity, diff returns none
exactly when the wrapped nodes are structurally equal; the self-diff of
any parsed index is none; and when the nodes differ the delta echoes both
compared values in its old and new fields. -/
theorem index_diff_none_iff_eq :
    (∀ a b : Index, a.id = b.id →
      (Index.diff a b = RResult.ok none ↔ a.node = b.node)) ∧
    (∀ (s : String) (i : Index), Index.from_str s = RResult.ok i →
      Index.diff i i = RResult.ok none) ∧
    (∀ a b : Index, a.id = b.id → a.node ≠ b.node →
      ∃ d : IndexDiff, Index.diff a b = RResult.ok (some d) ∧
        d.old = some a ∧ d.new = some b) := by
  refine ⟨?_, ?_, ?_⟩
  · intro a b hid
    cases a with
    | mk aid anode =>
      cases b with
      | mk bid bnode =>
        simp only at hid
        subst hid
        by_cases h : anode = bnode
        · subst h
          simp [Index.diff]
        · simp [Index.diff, Index.mk.injEq, h, create_diff]
  · intro s i _
    simp [Index.diff]
  · intro a b hid hnode
    have hne : a ≠ b := by
      intro h
      exact hnode (by rw [h])
    refine ⟨{ id := a.id, old := some a, new := some b,
              diff := "- " ++ describeNode a.node ++ "\n+ " ++ describeNode b.node },
            ?_, rfl, rfl⟩
    simp [Index.diff, hid, hne, create_diff]

/-- Closed instance of C1 at the parsed indexes foo(baz) and foo(ooo). -/
theorem index_diff_none_iff_eq_witness :
    (Index.diff idxFooBaz idxFooOoo = RResult.ok none ↔ idxFooBaz.node = idxFooOoo.node) ∧
    Index.diff idxFooBaz idxFooBaz = RResult.ok none ∧
    ∃ d : IndexDiff, Index.diff idxFooBaz idxFooOoo = RResult.ok (some d) ∧
      d.old = some idxFooBaz ∧ d.new = some idxFooOoo :=
  ⟨index_diff_none_iff_eq.1 idxFooBaz idxFooOoo rfl,
   index_diff_none_iff_eq.2.1 "CREATE INDEX foo ON bar (baz);" idxFooBaz rfl,
   index_diff_none_iff_eq.2.2 idxFooBaz idxFooOoo rfl (by decide)⟩

/-- C2: diffing the parses of CREATE INDEX foo ON bar (baz); and
CREATE INDEX foo ON bar (ooo); yields a delta whose plan is exactly
DROP INDEX foo; followed by CREATE INDEX foo ON bar USING btree (ooo);. -/
theorem index_changed_plan_drop_create :
    ∃ (a b : Index) (d : IndexDiff),
      Index.from_str "CREATE INDEX foo ON bar (baz);" = RResult.ok a ∧
      Index.from_str "CREATE INDEX foo ON bar (ooo);" = RResult.ok b ∧
      Index.diff a b = RResult.ok (some d) ∧
      IndexDiff.plan d = RResult.ok
        ["DROP INDEX foo;", "CREATE INDEX foo ON bar USING btree (ooo);"] :=
  ⟨idxFooBaz, idxFooOoo, deltaFoo, rfl, rfl, by decide, rfl⟩

/-- C4: diffing two indexes with different identities fails with the
identity-mismatch error and never produces a result, neither a delta nor
the empty answer. -/
theorem index_diff_identity_mismatch :
    ∀ a b : Index, a.id ≠ b.id →
      Index.diff a b =
        RResult.err ("can't diff " ++ a.id.name ++ " and " ++ b.id.name) ∧
      ∀ o : Option IndexDiff, Index.diff a b ≠ RResult.ok o := by
  intro a b h
  refine ⟨by simp [Index.diff, h], ?_⟩
  intro o
  simp [Index.diff, h]

/-- Closed instance of C4 at the parsed indexes foo and qux. -/
theorem index_diff_identity_mismatch_witness :
    Index.diff idxFooBaz idxQux = RResult.err "can't diff foo and qux" ∧
    ∀ o : Option IndexDiff, Index.diff idxFooBaz idxQux ≠ RResult.ok o :=
  index_diff_identity_mismatch idxFooBaz idxQux (by decide)

/-- C5: a dropped RLS-enable delta for table foo plans to exactly the
synthesized disable statement for public.foo, whatever the reporting
string of the delta is. -/
theorem table_rls_dropped_plan_disable :
    ∀ (t : TableRls) (ds : String),
      TableRls.from_str "ALTER TABLE foo ENABLE ROW LEVEL SECURITY" = RResult.ok t →
      NodeDiff.plan { old := some t, new := none, diff := ds } =
        RResult.ok ["ALTER TABLE public.foo DISABLE ROW LEVEL SECURITY"] := by
  intro t ds h
  have hfrom : TableRls.from_str "ALTER TABLE foo ENABLE ROW LEVEL SECURITY" =
      RResult.ok rlsFoo := rfl
  rw [hfrom] at h
  injection h with h
  subst h
  rfl

/-- Closed instance of C5 at the parsed RLS-enable statement. -/
theorem table_rls_dropped_plan_disable_witness :
    NodeDiff.plan { old := some rlsFoo, new := none, diff := "" } =
      RResult.ok ["ALTER TABLE public.foo DISABLE ROW LEVEL SECURITY"] :=
  table_rls_dropped_plan_disable rlsFoo "" rfl

/-- C7: the alter sub-operation of the TableRls planner is the documented
no-op: it returns the empty statement list for every delta, however old
and new differ. -/
theorem table_rls_alter_noop :
    ∀ d : NodeDiff TableRls, NodeDiff.alter d = RResult.ok [] :=
  fun _ => rfl

/-- C10: generate_change hands the base Privilege back untouched and the
statement it builds is the base grant statement with exactly the
direction flag forced and the privilege list narrowed to the one
sub-item; the original wrapped value is never modified. -/
theorem generate_change_preserves_base :
    ∀ (p : SinglePriv) (item : Privilege) (g : Bool) (n : NodeEnum) (item2 : Privilege),
      SinglePriv.generate_change p item g = RResult.ok (n, item2) →
      item2 = item ∧
      ∃ base : GrantStmt, item.inner = Except.ok base ∧
        n = NodeEnum.grantStmt
          { base with is_grant := g, privileges := [AccessPriv.ofSinglePriv p] } := by
  intro p item g n item2 h
  unfold SinglePriv.generate_change at h
  cases hi : item.inner with
  | error e =>
    rw [hi] at h
    cases h
  | ok stmt0 =>
    rw [hi] at h
    injection h with h
    obtain ⟨h1, h2⟩ := Prod.mk.injEq .. |>.mp h
    exact ⟨h2.symm, stmt0, rfl, h1.symm⟩

/-- Closed instance of C10: revoking INSERT against the base grant on
public.foo returns the base privilege unchanged. -/
theorem generate_change_preserves_base_witness :
    privFoo = privFoo ∧
    ∃ base : GrantStmt, privFoo.inner = Except.ok base ∧
      grantAfterRevoke = NodeEnum.grantStmt
        { base with is_grant := false, privileges := [AccessPriv.ofSinglePriv spInsert] } :=
  generate_change_preserves_base spInsert privFoo false grantAfterRevoke privFoo rfl

/-- A successful SinglePriv drop always yields exactly one statement. -/
theorem single_priv_drop_singleton (p : SinglePriv) (item : Privilege) (l : List String)
    (h : SinglePriv.drop p item = RResult.ok l) : l.length = 1 := by
  unfold SinglePriv.drop SinglePriv.generate_change at h
  cases hi : item.inner with
  | error e =>
    rw [hi] at h
    simp [RResult.bind] at h
  | ok stmt0 =>
    rw [hi] at h
    simp [RResult.bind, RResult.ofExcept, NodeEnum.deparse] at h
    simp [← h]

/-- A successful SinglePriv create always yields exactly one statement. -/
theorem single_priv_create_singleton (p : SinglePriv) (item : Privilege) (l : List String)
    (h : SinglePriv.create p item = RResult.ok l) : l.length = 1 := by
  unfold SinglePriv.create SinglePriv.generate_change at h
  cases hi : item.inner with
  | error e =>
    rw [hi] at h
    simp [RResult.bind] at h
  | ok stmt0 =>
    rw [hi] at h
    simp [RResult.bind, RResult.ofExcept, NodeEnum.deparse] at h
    simp [← h]

/-- C6: the alter of a single privilege is exactly the concatenation of
its drop (one REVOKE statement) followed by the create of the new side
(one GRANT statement). -/
theorem single_priv_alter_is_drop_then_create :
    ∀ (p : SinglePriv) (item : Privilege) (r : SinglePriv) (ds cs : List String),
      SinglePriv.drop p item = RResult.ok ds →
      SinglePriv.create r item = RResult.ok cs →
      SinglePriv.alter p item r = RResult.ok (ds ++ cs) ∧
        ds.length = 1 ∧ cs.length = 1 := by
  intro p item r ds cs hd hc
  exact ⟨by simp [SinglePriv.alter, hd, hc, RResult.bind],
         single_priv_drop_singleton p item ds hd,
         single_priv_create_singleton r item cs hc⟩

/-- Closed instance of C6 at the INSERT-to-UPDATE change against the base
grant on public.foo. -/
theorem single_priv_alter_is_drop_then_create_witness :
    SinglePriv.alter spInsert privFoo spUpdate =
      RResult.ok (["REVOKE insert ON TABLE public.foo FROM app_user"] ++
        ["GRANT update ON TABLE public.foo TO app_user"]) ∧
    (["REVOKE insert ON TABLE public.foo FROM app_user"] : List String).length = 1 ∧
    (["GRANT update ON TABLE public.foo TO app_user"] : List String).length = 1 :=
  single_priv_alter_is_drop_then_create spInsert privFoo spUpdate _ _ rfl rfl

/-- C3: drop and revert statements always precede create statements in a
plan: an altered index delta plans to the DROP INDEX statement followed
by one rendered create statement; an altered single privilege plans to a
REVOKE statement followed by a GRANT statement; a TableRls plan never
holds more than one statement, so no create can precede a drop there. -/
theorem plan_drop_before_create :
    (∀ (d : IndexDiff) (ol nw : Index) (l : List String),
        d.old = some ol → d.new = some nw → IndexDiff.plan d = RResult.ok l →
        ∃ c, l = ["DROP INDEX " ++ ol.id.name ++ ";", c]) ∧
    (∀ (p : SinglePriv) (item : Privilege) (r : SinglePriv) (l : List String),
        SinglePriv.alter p item r = RResult.ok l →
        ∃ rvTail grTail, l = ["REVOKE " ++ rvTail, "GRANT " ++ grTail]) ∧
    (∀ (d : NodeDiff TableRls) (l : List String),
        NodeDiff.plan d = RResult.ok l → l.length ≤ 1) := by
  refine ⟨?_, ?_, ?_⟩
  · intro d ol nw l hold hnew hplan
    cases hdep : nw.node.deparse with
    | ok s =>
      simp [IndexDiff.plan, hold, hnew, hdep] at hplan
      exact ⟨s ++ ";", hplan.symm⟩
    | error e =>
      simp [IndexDiff.plan, hold, hnew, hdep] at hplan
  · intro p item r l h
    unfold SinglePriv.alter SinglePriv.drop SinglePriv.create
      SinglePriv.generate_change at h
    cases hi : item.inner with
    | error e =>
      rw [hi] at h
      simp [RResult.bind] at h
    | ok stmt0 =>
      rw [hi] at h
      simp [RResult.bind, RResult.ofExcept, NodeEnum.deparse] at h
      exact ⟨_, _, h.symm⟩
  · intro d l h
    rcases hold : d.old with _ | t <;> rcases hnew : d.new with _ | n
    · simp [NodeDiff.plan, hold, hnew] at h
      simp [h]
    · cases hdep : n.node.deparse with
      | ok s =>
        simp [NodeDiff.plan, NodeDiff.create, hold, hnew, hdep,
          RResult.ofExcept, RResult.bind] at h
        simp [← h]
      | error e =>
        simp [NodeDiff.plan, NodeDiff.create, hold, hnew, hdep,
          RResult.ofExcept, RResult.bind] at h
    · cases hr : t.revert with
      | ok n2 =>
        cases hdep : n2.deparse with
        | ok s =>
          simp [NodeDiff.plan, NodeDiff.drop, hold, hnew, hr, hdep,
            RResult.ofExcept, RResult.bind] at h
          simp [← h]
        | error e =>
          simp [NodeDiff.plan, NodeDiff.drop, hold, hnew, hr, hdep,
            RResult.ofExcept, RResult.bind] at h
      | err e =>
        simp [NodeDiff.plan, NodeDiff.drop, hold, hnew, hr, RResult.bind] at h
      | panicked m2 =>
        simp [NodeDiff.plan, NodeDiff.drop, hold, hnew, hr, RResult.bind] at h
    · simp [NodeDiff.plan, NodeDiff.alter, hold, hnew] at h
      simp [h]

/-- Closed instance of C3 at a concrete altered index delta, a concrete
altered single privilege, and a concrete dropped TableRls delta. -/
theorem plan_drop_before_create_witness :
    (∃ c, ["DROP INDEX foo;", "CREATE INDEX foo ON bar USING btree (ooo);"] =
      ["DROP INDEX " ++ idxFooBaz.id.name ++ ";", c]) ∧
    (∃ rvTail grTail,
      ["REVOKE insert ON TABLE public.foo FROM app_user",
       "GRANT update ON TABLE public.foo TO app_user"] =
        ["REVOKE " ++ rvTail, "GRANT " ++ grTail]) ∧
    (["ALTER TABLE public.foo DISABLE ROW LEVEL SECURITY"] : List String).length ≤ 1 :=
  ⟨plan_drop_before_create.1 deltaFoo idxFooBaz idxFooOoo _ rfl rfl rfl,
   plan_drop_before_create.2.1 spInsert privFoo spUpdate _ rfl,
   plan_drop_before_create.2.2 { old := some rlsFoo, new := none, diff := "" } _ rfl⟩

/-- Every index statement the subset grammar yields carries its target
relation. -/
theorem parseCreateIndexTail_relation (ts : List String) (stmt : IndexStmt)
    (h : parseCreateIndexTail ts = Except.ok stmt) : stmt.relation.isSome = true := by
  unfold parseCreateIndexTail at h
  repeat' split at h
  all_goals simp_all
  all_goals simp [← h]

/-- Every index statement node the subset parser yields carries its
target relation. -/
theorem parseStmtTokens_index_relation (ts : List String) (stmt : IndexStmt)
    (h : parseStmtTokens ts = Except.ok (NodeEnum.indexStmt stmt)) :
    stmt.relation.isSome = true := by
  unfold parseStmtTokens at h
  split at h
  · split at h
    · split at h
      · rename_i s heq
        injection h with h
        injection h with h
        subst h
        exact parseCreateIndexTail_relation _ _ heq
      · simp at h
    · split at h
      · split at h
        · simp at h
        · simp at h
      · simp at h
  · simp at h

/-- The first statement of a successful multi-statement parse comes from
parsing one of its statement groups. -/
theorem parseGroups_head (gs : List (List String)) (n : NodeEnum) (ns : List NodeEnum)
    (h : parseGroups gs = Except.ok (n :: ns)) :
    ∃ g, parseStmtTokens g = Except.ok n := by
  cases gs with
  | nil => simp [parseGroups] at h
  | cons g gs2 =>
    cases h1 : parseStmtTokens g with
    | ok n0 =>
      cases h2 : parseGroups gs2 with
      | ok ns0 =>
        refine ⟨g, ?_⟩
        rw [h1]
        simp [parseGroups, h1, h2] at h
        rw [h.1]
      | error e => simp [parseGroups, h1, h2] at h
    | error e => simp [parseGroups, h1] at h

/-- C8 counterexample: on the empty string the SQL parse succeeds with
zero statements and from_str panics on the out-of-bounds index into the
statement list, instead of returning an error. -/
theorem index_from_str_empty_panics :
    Index.from_str "" =
      RResult.panicked "index out of bounds: the len is 0 but the index is 0" := rfl

/-- C8 amended: for every input whose SQL parse does not yield zero
statements, from_str returns a wrapped Index or fails with an error and
never panics; in particular the relation assertion inside get_id can
never fire on a parsed statement. -/
theorem index_from_str_no_panic_on_nonempty_parse :
    ∀ s : String, pgParse s ≠ Except.ok [] →
      ∀ m : String, Index.from_str s ≠ RResult.panicked m := by
  intro s hne m
  cases hp : pgParse s with
  | error e => simp [Index.from_str, hp]
  | ok l =>
    cases l with
    | nil => exact absurd hp hne
    | cons n rest =>
      cases n with
      | indexStmt stmt =>
        have hp2 : parseGroups (splitStmts (tokenize s)) =
            Except.ok (NodeEnum.indexStmt stmt :: rest) := hp
        obtain ⟨g, hg⟩ := parseGroups_head _ _ _ hp2
        have hrel := parseStmtTokens_index_relation g stmt hg
        obtain ⟨rv, hrv⟩ := Option.isSome_iff_exists.mp hrel
        simp [Index.from_str, hp, Index.try_from, get_id, hrv, RResult.bind]
      | alterTableStmt stmt => simp [Index.from_str, hp]
      | grantStmt stmt => simp [Index.from_str, hp]
      | string s2 => simp [Index.from_str, hp]

/-- Closed instance of the amended C8 at a well-formed CREATE INDEX. -/
theorem index_from_str_no_panic_on_nonempty_parse_witness :
    Index.from_str "CREATE INDEX foo ON bar (baz);" ≠ RResult.panicked "boom" :=
  index_from_str_no_panic_on_nonempty_parse "CREATE INDEX foo ON bar (baz);"
    (by
      rw [show pgParse "CREATE INDEX foo ON bar (baz);" = Except.ok [idxFooBaz.node]
        from rfl]
      simp) "boom"

/-- Tokenizing a string that starts with ALTER TABLE yields the two
keyword tokens followed by the tokens of the remainder. -/
theorem tokenizeChars_alter_prefix (cs : List Char) :
    tokenizeChars (("ALTER TABLE ").toList ++ cs) [] =
      "alter" :: "table" :: tokenizeChars cs [] := rfl

/-- Splitting a token stream never loses a pending nonempty group. -/
theorem splitAux_ne_nil (ts : List String) :
    ∀ cur : List String, cur ≠ [] → splitAux ts cur ≠ [] := by
  induction ts with
  | nil =>
    intro cur hc
    simp [splitAux, hc]
  | cons t ts2 ih =>
    intro cur hc
    unfold splitAux
    by_cases ht : t = ";"
    · simp [ht, hc]
    · simp only [ht, if_false]
      exact ih (t :: cur) (by simp)

/-- Parsing a nonempty list of statement groups never returns the empty
statement list. -/
theorem parseGroups_cons_ne_nil (g : List String) (gs : List (List String)) :
    parseGroups (g :: gs) ≠ Except.ok [] := by
  intro h
  cases h1 : parseStmtTokens g <;> cases h2 : parseGroups gs <;>
    simp [parseGroups, h1, h2] at h

/-- The revert of a TableRls never panics: the synthesized DISABLE text
always tokenizes to a nonempty statement group, so the indexing into the
parse result cannot be out of bounds. -/
theorem table_rls_revert_no_panic (t : TableRls) (m : String) :
    TableRls.revert t ≠ RResult.panicked m := by
  have hne : pgParse ("ALTER TABLE " ++ t.id.display ++ " DISABLE ROW LEVEL SECURITY")
      ≠ Except.ok [] := by
    have hassoc : "ALTER TABLE " ++ t.id.display ++ " DISABLE ROW LEVEL SECURITY" =
        "ALTER TABLE " ++ (t.id.display ++ " DISABLE ROW LEVEL SECURITY") :=
      String.append_assoc ..
    have htok : tokenize ("ALTER TABLE " ++ t.id.display ++ " DISABLE ROW LEVEL SECURITY")
        = "alter" :: "table" ::
            tokenizeChars (t.id.display ++ " DISABLE ROW LEVEL SECURITY").toList [] := by
      rw [hassoc]
      unfold tokenize
      rw [show ("ALTER TABLE " ++ (t.id.display ++ " DISABLE ROW LEVEL SECURITY")).toList
          = ("ALTER TABLE ").toList ++ (t.id.display ++ " DISABLE ROW LEVEL SECURITY").toList
        from String.data_append ..]
      exact tokenizeChars_alter_prefix _
    have hsplit : splitStmts (tokenize
        ("ALTER TABLE " ++ t.id.display ++ " DISABLE ROW LEVEL SECURITY")) ≠ [] := by
      rw [htok]
      show splitAux ("alter" :: "table" :: _) [] ≠ []
      unfold splitAux
      simp only [if_neg (by decide : ¬ ("alter" : String) = ";")]
      unfold splitAux
      simp only [if_neg (by decide : ¬ ("table" : String) = ";")]
      exact splitAux_ne_nil _ _ (by simp)
    obtain ⟨g, gs, hgs⟩ := List.exists_cons_of_ne_nil hsplit
    unfold pgParse
    rw [hgs]
    exact parseGroups_cons_ne_nil g gs
  unfold TableRls.revert
  cases hp : pgParse ("ALTER TABLE " ++ t.id.display ++ " DISABLE ROW LEVEL SECURITY") with
  | error e => simp [hp]
  | ok l =>
    cases l with
    | nil => exact absurd hp hne
    | cons n rest => cases n <;> simp [hp]

/-- C9 counterexample: the index planner has no error channel; on a delta
whose new node cannot be re-rendered it panics (the unwrap of deparse)
instead of returning a RenderError result. -/
theorem index_plan_panics_on_render_failure :
    IndexDiff.plan badIndexDelta =
      RResult.panicked "deparse: unpermitted non-statement node" := rfl

/-- C9 amended: the TableRls planner returns render failures as error
results and never panics, while the Index planner propagates the old
side and panics whenever the deparse of the new node fails. -/
theorem plan_render_errors_surfaced :
    (∀ (d : NodeDiff TableRls) (m : String),
        NodeDiff.plan d ≠ RResult.panicked m) ∧
    (∀ (d : NodeDiff TableRls) (n : TableRls) (e : String),
        d.old = none → d.new = some n → NodeEnum.deparse n.node = Except.error e →
        NodeDiff.plan d = RResult.err e) ∧
    (∀ (d : IndexDiff) (n : Index) (e : String),
        d.new = some n → NodeEnum.deparse n.node = Except.error e →
        IndexDiff.plan d = RResult.panicked e) := by
  refine ⟨?_, ?_, ?_⟩
  · intro d m
    rcases hold : d.old with _ | t <;> rcases hnew : d.new with _ | n
    · simp [NodeDiff.plan, hold, hnew]
    · cases hdep : n.node.deparse with
      | ok s =>
        simp [NodeDiff.plan, NodeDiff.create, hold, hnew, hdep,
          RResult.ofExcept, RResult.bind]
      | error e =>
        simp [NodeDiff.plan, NodeDiff.create, hold, hnew, hdep,
          RResult.ofExcept, RResult.bind]
    · cases hr : t.revert with
      | ok n2 =>
        cases hdep : n2.deparse with
        | ok s =>
          simp [NodeDiff.plan, NodeDiff.drop, hold, hnew, hr, hdep,
            RResult.ofExcept, RResult.bind]
        | error e =>
          simp [NodeDiff.plan, NodeDiff.drop, hold, hnew, hr, hdep,
            RResult.ofExcept, RResult.bind]
      | err e =>
        simp [NodeDiff.plan, NodeDiff.drop, hold, hnew, hr, RResult.bind]
      | panicked m2 =>
        exact absurd hr (table_rls_revert_no_panic t m2)
    · simp [NodeDiff.plan, NodeDiff.alter, hold, hnew]
  · intro d n e hold hnew hdep
    simp [NodeDiff.plan, NodeDiff.create, hold, hnew, hdep,
      RResult.ofExcept, RResult.bind]
  · intro d n e hnew hdep
    rcases hold : d.old with _ | ol <;> simp [IndexDiff.plan, hold, hnew, hdep]

/-- Closed instance of the amended C9: a created-shape TableRls delta
holding a non-deparsable node plans to a returned render error. -/
theorem plan_render_errors_surfaced_witness :
    NodeDiff.plan { old := none, new := some rlsBad, diff := "" } =
      RResult.err "deparse: unpermitted non-statement node" :=
  plan_render_errors_surfaced.2.1 { old := none, new := some rlsBad, diff := "" }
    rlsBad "deparse: unpermitted non-statement node" rfl rfl rfl

end Renovate
